import Mathlib

/-!
Verification development for the star-protocol repository.

The Python source is embedded shallowly:
* JSON values (the wire format and every free-form `Dict[str, Any]` payload)
  become the inductive type `Json` below.  Python `json.dumps` / `json.loads`
  form a bijection between JSON trees and their textual frames, so the
  encode/decode pair is modelled at the JSON-tree level: `to_json` is
  `to_dict` and `from_json` is `from_dict`.
* Machine floats that are only carried around (timestamps, timeouts) are
  modelled as `Int`; no claim depends on float arithmetic, only on ordering
  and on values being transported verbatim.
* `uuid.uuid4()` and `time.time()` are oracles: functions that mint ids or
  read the clock take them as explicit arguments.
* Fallible Python code (raising `ValidationException` etc.) returns `Option`.
-/

/-- JSON value. Objects and arrays are cons-encoded so that structural
equality is derivable; `Json.mkObj` builds an object from a key/value list
in insertion order, matching a Python dict literal. -/
inductive Json where
  | null : Json
  | bool (b : Bool) : Json
  | num (n : Int) : Json
  | str (s : String) : Json
  | arrNil : Json
  | arrCons (head tail : Json) : Json
  | objNil : Json
  | objCons (key : String) (val tail : Json) : Json
deriving DecidableEq, Repr

def Json.mkObj : List (String × Json) → Json
  | [] => .objNil
  | (k, v) :: rest => .objCons k v (Json.mkObj rest)

/-- Python `data.get(key)` on a JSON object (first matching key; dict keys
are unique, so this is the dict lookup). Returns `none` when absent. -/
def Json.getKey : Json → String → Option Json
  | .objCons k v rest, key => if k = key then some v else Json.getKey rest key
  | _, _ => none

/-- Python `data[key]` / `data.get(key)` where the annotated type is `str`. -/
def Json.getStr (j : Json) (key : String) : Option String :=
  match j.getKey key with
  | some (.str s) => some s
  | _ => none

/-- Python `data[key]` where the annotated type is `int`. -/
def Json.getInt (j : Json) (key : String) : Option Int :=
  match j.getKey key with
  | some (.num n) => some n
  | _ => none

/-- Python `data.get(key, default={})` followed by the dataclass
`__post_init__` that replaces `None` by `{}` (so an explicit JSON null also
becomes the empty dict). -/
def Json.getDictD (j : Json) (key : String) : Json :=
  match j.getKey key with
  | none => .objNil
  | some v => if v = .null then .objNil else v

/-- Python `data.get(key)` for an `Optional` payload field: an absent key and
an explicit JSON null both give Python `None`. -/
def Json.getOpt (j : Json) (key : String) : Option Json :=
  match j.getKey key with
  | none => none
  | some v => if v = .null then none else some v

/-! ## star_protocol_v4/protocol: enums

`star_protocol_v4/protocol/types.py` is imported by `messages.py` but is not
present under `src/`; the three enums are modelled from the spec (section 3)
and from their usage in the v4 sources: `EnvelopeType` has members
HEARTBEAT/MESSAGE/ERROR, `ClientType` has AGENT/ENVIRONMENT/HUMAN, and
`MessageType` values are the literal discriminator strings used by
`message_from_dict`. -/

inductive EnvelopeType where
  | heartbeat
  | message
  | error
deriving DecidableEq, Repr

/-- Python `EnvelopeType.value`. -/
def EnvelopeType.value : EnvelopeType → String
  | .heartbeat => "heartbeat"
  | .message => "message"
  | .error => "error"

/-- Python `EnvelopeType(s)`: `ValueError` on an unknown value is `none`. -/
def EnvelopeType.ofValue : String → Option EnvelopeType
  | "heartbeat" => some .heartbeat
  | "message" => some .message
  | "error" => some .error
  | _ => none

inductive ClientType where
  | agent
  | environment
  | human
deriving DecidableEq, Repr

/-- Python `ClientType.value`. -/
def ClientType.value : ClientType → String
  | .agent => "agent"
  | .environment => "environment"
  | .human => "human"

/-- Python `ClientType(s)`: `ValueError` on an unknown value is `none`. -/
def ClientType.ofValue : String → Option ClientType
  | "agent" => some .agent
  | "environment" => some .environment
  | "human" => some .human
  | _ => none

/-! ## star_protocol_v4/protocol/messages.py -/

/-- `ClientInfo` dataclass (client_id, client_type, optional env_id,
optional metadata). -/
structure ClientInfo where
  client_id : String
  client_type : ClientType
  env_id : Option String := none
  metadata : Option Json := none
deriving DecidableEq, Repr

/-- `ClientInfo.to_dict`: env_id / metadata keys are emitted only when not
`None`. -/
def ClientInfo.to_dict (c : ClientInfo) : Json :=
  Json.mkObj
    ([("client_id", .str c.client_id), ("client_type", .str c.client_type.value)]
      ++ (match c.env_id with
          | some e => [("env_id", Json.str e)]
          | none => [])
      ++ (match c.metadata with
          | some m => [("metadata", m)]
          | none => []))

/-- `ClientInfo.from_dict`; `ValidationException` on a missing key or an
unknown client_type is `none`. -/
def ClientInfo.from_dict (j : Json) : Option ClientInfo := do
  let cid ← j.getStr "client_id"
  let ctv ← j.getStr "client_type"
  let ct ← ClientType.ofValue ctv
  some { client_id := cid, client_type := ct,
         env_id := (j.getKey "env_id").bind (fun v =>
           match v with
           | .str s => some s
           | _ => none),
         metadata := j.getOpt "metadata" }

/-- The inner message union of `messages.py`: ActionMessage, OutcomeMessage,
EventMessage, StreamMessage, RegistrationMessage, plus HeartbeatInfo (which
the `Message` union also lists). The constant `message_type` discriminator
of each dataclass is implied by the constructor. -/
inductive Message where
  | action (action action_id : String) (parameters : Json)
  | outcome (action_id status : String) (outcome : Json)
  | event (event event_id : String) (data : Json)
  | stream (stream_id stream : String) (sequence : Int) (chunk : Json)
  | registration (client_info : ClientInfo)
  | heartbeatInfo (status : String) (metrics : Option Json)
deriving DecidableEq, Repr

/-- The `to_dict` of each message dataclass, with the key order of the
source. `HeartbeatInfo.to_dict` has no message_type key and emits metrics
only when not `None`. -/
def Message.to_dict : Message → Json
  | .action a aid ps =>
      .mkObj [("message_type", .str "action"), ("action", .str a),
              ("action_id", .str aid), ("parameters", ps)]
  | .outcome aid st oc =>
      .mkObj [("message_type", .str "outcome"), ("action_id", .str aid),
              ("status", .str st), ("outcome", oc)]
  | .event ev eid d =>
      .mkObj [("message_type", .str "event"), ("event_id", .str eid),
              ("event", .str ev), ("data", d)]
  | .stream sid s seq ch =>
      .mkObj [("message_type", .str "stream"), ("stream_id", .str sid),
              ("stream", .str s), ("sequence", .num seq), ("chunk", ch)]
  | .registration ci =>
      .mkObj [("message_type", .str "registration"), ("client_info", ci.to_dict)]
  | .heartbeatInfo st metrics =>
      .mkObj ([("status", .str st)]
        ++ (match metrics with
            | some m => [("metrics", m)]
            | none => []))

/-- `message_from_dict` together with each kind's `from_dict` and
`__post_init__`: a missing key raises (is `none`); an empty `action_id`,
`event_id` or `stream_id` is replaced by a freshly minted id (the `fresh`
oracle stands for `str(uuid.uuid4())`). -/
def message_from_dict (fresh : String) (j : Json) : Option Message :=
  match j.getStr "message_type" with
  | some "action" => do
      let a ← j.getStr "action"
      let aid ← j.getStr "action_id"
      some (.action a (if aid = "" then "act_" ++ fresh else aid)
        (j.getDictD "parameters"))
  | some "outcome" => do
      let aid ← j.getStr "action_id"
      let st ← j.getStr "status"
      some (.outcome aid st (j.getDictD "outcome"))
  | some "event" => do
      let ev ← j.getStr "event"
      let eid ← j.getStr "event_id"
      some (.event ev (if eid = "" then "evt_" ++ fresh else eid)
        (j.getDictD "data"))
  | some "stream" => do
      let s ← j.getStr "stream"
      let sid ← j.getStr "stream_id"
      let seq ← j.getInt "sequence"
      some (.stream (if sid = "" then "strm_" ++ fresh else sid) s seq
        (j.getDictD "chunk"))
  | some "registration" => do
      let ciDict ← j.getKey "client_info"
      let ci ← ClientInfo.from_dict ciDict
      some (.registration ci)
  | _ => none

/-- `Envelope` dataclass after `__post_init__` (envelope_id and timestamp
are always set on a constructed value). -/
structure Envelope where
  envelope_type : EnvelopeType
  sender : String
  recipient : String
  message : Message
  envelope_id : String
  timestamp : Int
deriving DecidableEq, Repr

/-- `Envelope.to_dict`: the outer record uses the key `type` for the
envelope type and `message` for the inner payload. -/
def Envelope.to_dict (e : Envelope) : Json :=
  Json.mkObj
    [("type", .str e.envelope_type.value), ("sender", .str e.sender),
     ("recipient", .str e.recipient), ("message", e.message.to_dict),
     ("envelope_id", .str e.envelope_id), ("timestamp", .num e.timestamp)]

/-- `Envelope.from_dict`: a heartbeat envelope's message is NOT parsed; it
is replaced by the default `HeartbeatInfo(status="alive")`. A missing
envelope_id / timestamp is minted by `__post_init__` from the `fresh` and
`now` oracles. -/
def Envelope.from_dict (fresh : String) (now : Int) (j : Json) : Option Envelope := do
  let tv ← j.getStr "type"
  let et ← EnvelopeType.ofValue tv
  let msg ← if et = EnvelopeType.heartbeat then
      some (Message.heartbeatInfo "alive" none)
    else do
      let md ← j.getKey "message"
      message_from_dict fresh md
  let sender ← j.getStr "sender"
  let recipient ← j.getStr "recipient"
  some { envelope_type := et, sender := sender, recipient := recipient,
         message := msg,
         envelope_id := (j.getStr "envelope_id").getD fresh,
         timestamp := (j.getInt "timestamp").getD now }

/-- `Envelope.to_json` is `json.dumps(self.to_dict())`; serialisation of a
JSON tree is modelled as the tree itself (dumps/loads round-trip JSON trees
losslessly). -/
def Envelope.to_json (e : Envelope) : Json :=
  e.to_dict

/-- `Envelope.from_json` is `from_dict(json.loads(s))`. -/
def Envelope.from_json (fresh : String) (now : Int) (j : Json) : Option Envelope :=
  Envelope.from_dict fresh now j

/-- The message kinds of the five `message_from_dict` branches (everything
except a bare `HeartbeatInfo`). -/
def Message.isFiveKind : Message → Bool
  | .heartbeatInfo _ _ => false
  | _ => true

/-- States actually constructible by the Python dataclasses: each
`__post_init__` replaces an empty action_id / event_id / stream_id by a
fresh id and a `None` free-form dict by `{}`, and an `Optional` dict field
is either absent (`none`) or a real value (never JSON null). -/
def Message.well_formed : Message → Bool
  | .action _ aid ps => aid ≠ "" && ps ≠ .null
  | .outcome _ _ oc => oc ≠ .null
  | .event _ eid d => eid ≠ "" && d ≠ .null
  | .stream sid _ _ ch => sid ≠ "" && ch ≠ .null
  | .registration ci => ci.metadata ≠ some .null
  | .heartbeatInfo _ metrics => metrics ≠ some .null

def Envelope.well_formed (e : Envelope) : Bool :=
  e.message.well_formed

/-! ## C1: codec round-trip -/

/-- Round-trip of `ClientInfo` through its dict form (metadata is a Python
dict or `None`, never JSON null). -/
lemma ClientInfo.from_to (ci : ClientInfo) (hm : ci.metadata ≠ some .null) :
    ClientInfo.from_dict ci.to_dict = some ci := by
  obtain ⟨cid, ct, env, md⟩ := ci
  cases env <;> cases md <;>
    simp_all [ClientInfo.from_dict, ClientInfo.to_dict, Json.mkObj, Json.getKey,
      Json.getStr, Json.getOpt, ClientType.ofValue, ClientType.value, bind] <;>
    cases ct <;> simp [ClientType.value, ClientType.ofValue]

/-- Round-trip of each of the five parsed message kinds through its dict
form. -/
lemma message_from_to (m : Message) (fresh : String)
    (hwf : m.well_formed = true) (hk : m.isFiveKind = true) :
    message_from_dict fresh m.to_dict = some m := by
  cases m with
  | action a aid ps =>
      simp only [Message.well_formed, Bool.and_eq_true, decide_eq_true_eq] at hwf
      simp [message_from_dict, Message.to_dict, Json.mkObj, Json.getKey, Json.getStr,
        Json.getDictD, hwf.1, hwf.2, bind]
  | outcome aid st oc =>
      simp only [Message.well_formed, decide_eq_true_eq] at hwf
      simp [message_from_dict, Message.to_dict, Json.mkObj, Json.getKey, Json.getStr,
        Json.getDictD, hwf, bind]
  | event ev eid d =>
      simp only [Message.well_formed, Bool.and_eq_true, decide_eq_true_eq] at hwf
      simp [message_from_dict, Message.to_dict, Json.mkObj, Json.getKey, Json.getStr,
        Json.getDictD, hwf.1, hwf.2, bind]
  | stream sid s seq ch =>
      simp only [Message.well_formed, Bool.and_eq_true, decide_eq_true_eq] at hwf
      simp [message_from_dict, Message.to_dict, Json.mkObj, Json.getKey, Json.getStr,
        Json.getInt, Json.getDictD, hwf.1, hwf.2, bind]
  | registration ci =>
      simp only [Message.well_formed, decide_eq_true_eq] at hwf
      simp [message_from_dict, Message.to_dict, Json.mkObj, Json.getKey, Json.getStr,
        bind, ClientInfo.from_to ci hwf]
  | heartbeatInfo st metrics => simp [Message.isFiveKind] at hk

/-- C1 (counterexample): the claim "Envelope.from_json(e.to_json()) equals e
for every envelope of heartbeat, message or error type with any of the five
message kinds inside" fails for a heartbeat envelope carrying an action
message: decoding replaces the embedded message by the default
HeartbeatInfo(status="alive"). -/
theorem C1_counterexample :
    Envelope.from_json "fresh" 0
        (Envelope.to_json ⟨.heartbeat, "a", "b", .action "ping" "act_1" .objNil, "env1", 5⟩) =
      some ⟨.heartbeat, "a", "b", .heartbeatInfo "alive" none, "env1", 5⟩ ∧
    Envelope.from_json "fresh" 0
        (Envelope.to_json ⟨.heartbeat, "a", "b", .action "ping" "act_1" .objNil, "env1", 5⟩) ≠
      some ⟨.heartbeat, "a", "b", .action "ping" "act_1" .objNil, "env1", 5⟩ := by
  decide

/-- C1 (amended): encoding then decoding is the identity on every
constructible envelope of message or error type carrying any of the five
message kinds (including the embedded message, envelope_id and timestamp),
and on heartbeat envelopes exactly when the embedded message is the default
HeartbeatInfo(status="alive", metrics=None) that decoding reinstates. -/
theorem C1_roundtrip_amended (e : Envelope) (fresh : String) (now : Int)
    (hwf : e.well_formed = true)
    (hc : (e.envelope_type ≠ .heartbeat ∧ e.message.isFiveKind = true) ∨
          (e.envelope_type = .heartbeat ∧ e.message = .heartbeatInfo "alive" none)) :
    Envelope.from_json fresh now (Envelope.to_json e) = some e := by
  obtain ⟨et, s, r, msg, eid, ts⟩ := e
  rcases hc with ⟨hne, hfive⟩ | ⟨heq, hmsg⟩
  · have hmsg := message_from_to msg fresh hwf hfive
    cases et
    · exact absurd rfl hne
    all_goals
      simp [Envelope.from_json, Envelope.to_json, Envelope.from_dict, Envelope.to_dict,
        Json.mkObj, Json.getKey, Json.getStr, Json.getInt, EnvelopeType.value,
        EnvelopeType.ofValue, bind, hmsg]
  · subst heq
    subst hmsg
    simp [Envelope.from_json, Envelope.to_json, Envelope.from_dict, Envelope.to_dict,
      Json.mkObj, Json.getKey, Json.getStr, Json.getInt, EnvelopeType.value,
      EnvelopeType.ofValue, bind]

/-- C1 witness: the amended round-trip at a concrete message envelope. -/
theorem C1_roundtrip_amended_witness :
    Envelope.from_json "f" 0
        (Envelope.to_json ⟨.message, "a", "b", .action "move" "act_1" .objNil, "e1", 3⟩) =
      some ⟨.message, "a", "b", .action "move" "act_1" .objNil, "e1", 3⟩ :=
  C1_roundtrip_amended ⟨.message, "a", "b", .action "move" "act_1" .objNil, "e1", 3⟩
    "f" 0 (by decide) (by decide)

/-! ## star_protocol_v4/hub/manager.py -/

/-- `Connection`: the websocket is abstracted to the one bit observable
through `send_envelope`, namely whether a write to this peer succeeds
(`connected` and the possible send exception fold into `send_ok`). -/
structure Connection where
  send_ok : Bool
  client_info : ClientInfo
deriving DecidableEq, Repr

/-- `Connection.send_envelope` returns whether the write succeeded; success
does not depend on the envelope's content. -/
def Connection.send_envelope (c : Connection) (_e : Envelope) : Bool :=
  c.send_ok

/-- Python truthiness of an `Optional[str]` (`if client_info.env_id:`). -/
def pyTruthy : Option String → Bool
  | none => false
  | some s => !(s == "")

/-- Dict lookup on an association list (keys unique, first match). -/
def dictLookup {α : Type} : List (String × α) → String → Option α
  | [], _ => none
  | (k, v) :: rest, key => if k = key then some v else dictLookup rest key

/-- Python `set.add` (sets are modelled as duplicate-free lists). -/
def setAdd (s : List String) (id : String) : List String :=
  if id ∈ s then s else s ++ [id]

/-- Python `set.discard`. -/
def setDiscard (s : List String) (id : String) : List String :=
  s.filter (fun x => x != id)

/-- `ConnectionManager` state: the primary `_connections` dict, the three
sets of the `_type_index` dict (whose keys are fixed at construction), and
the `_env_index` dict. -/
structure ConnectionManager where
  connections : List (String × Connection)
  agent_ids : List String
  environment_ids : List String
  human_ids : List String
  env_index : List (String × List String)
deriving DecidableEq, Repr

/-- A freshly constructed `ConnectionManager`. -/
def ConnectionManager.empty : ConnectionManager :=
  ⟨[], [], [], [], []⟩

/-- The set `self._type_index[t]`. -/
def ConnectionManager.type_index (m : ConnectionManager) : ClientType → List String
  | .agent => m.agent_ids
  | .environment => m.environment_ids
  | .human => m.human_ids

/-- Update `self._type_index[t]` in place. -/
def ConnectionManager.withTypeIndex (m : ConnectionManager) (t : ClientType)
    (f : List String → List String) : ConnectionManager :=
  match t with
  | .agent => { m with agent_ids := f m.agent_ids }
  | .environment => { m with environment_ids := f m.environment_ids }
  | .human => { m with human_ids := f m.human_ids }

/-- The ids in `self._env_index.get(env, set())`. -/
def ConnectionManager.env_ids (m : ConnectionManager) (env : String) : List String :=
  (dictLookup m.env_index env).getD []

/-- `ConnectionManager.add_connection`: reject a duplicate id, otherwise
insert into the primary map, the type index, and (when env_id is truthy)
the env index. The websocket argument is the `send_ok` abstraction. The
source updates the three structures in sequence; since each update touches
its own field only, each is stated against the pre-state here and the type
index update is applied last. -/
def ConnectionManager.add_connection (m : ConnectionManager) (send_ok : Bool)
    (info : ClientInfo) : Bool × ConnectionManager :=
  let cid := info.client_id
  if (dictLookup m.connections cid).isSome then (false, m)
  else
    let conns := m.connections ++ [(cid, Connection.mk send_ok info)]
    let env_idx :=
      if pyTruthy info.env_id then
        let env := info.env_id.getD ""
        match dictLookup m.env_index env with
        | none => m.env_index ++ [(env, [cid])]
        | some _ =>
            m.env_index.map (fun p => if p.1 = env then (p.1, setAdd p.2 cid) else p)
      else m.env_index
    (true, ({ m with
        connections := conns
        env_index := env_idx }).withTypeIndex info.client_type
        (fun s => setAdd s cid))

/-- `ConnectionManager.remove_connection`: delete from the primary map,
discard from the type index, and discard from the env index (dropping the
env key when its set becomes empty). As in `add_connection`, the disjoint
field updates are stated against the pre-state. -/
def ConnectionManager.remove_connection (m : ConnectionManager) (cid : String) :
    Bool × ConnectionManager :=
  match dictLookup m.connections cid with
  | none => (false, m)
  | some conn =>
    let info := conn.client_info
    let conns := m.connections.filter (fun p => p.1 != cid)
    let env := info.env_id.getD ""
    let env_idx :=
      if pyTruthy info.env_id && (dictLookup m.env_index env).isSome then
        let s := setDiscard ((dictLookup m.env_index env).getD []) cid
        if s.isEmpty then m.env_index.filter (fun p => p.1 != env)
        else m.env_index.map (fun p => if p.1 = env then (p.1, s) else p)
      else m.env_index
    (true, ({ m with
        connections := conns
        env_index := env_idx }).withTypeIndex info.client_type
        (fun s => setDiscard s cid))

/-- `ConnectionManager.get_connection`. -/
def ConnectionManager.get_connection (m : ConnectionManager) (cid : String) :
    Option Connection :=
  dictLookup m.connections cid

/-- `ConnectionManager.get_connections_by_env`: the dict comprehension over
the env set keeping ids also present in the primary map. -/
def ConnectionManager.get_connections_by_env (m : ConnectionManager) (env : String) :
    List (String × Connection) :=
  (m.env_ids env).filterMap
    (fun cid => (dictLookup m.connections cid).map (fun c => (cid, c)))

/-- `ConnectionManager.get_all_connections` (a copy of `_connections`). -/
def ConnectionManager.get_all_connections (m : ConnectionManager) :
    List (String × Connection) :=
  m.connections

/-! ## star_protocol_v4/hub/router.py -/

/-- Observable effect of one `route_envelope` call: the Boolean the method
returns, the target ids whose `send_envelope` was attempted (in order), the
ids delivered successfully, and the manager after pruning failed peers. -/
structure RouteResult where
  returned : Bool
  attempted : List String
  delivered : List String
  manager : ConnectionManager
deriving DecidableEq, Repr

/-- Python `bool` used as an int (`True == 1`, `False == 0`): the value of
`route_envelope`'s result read as a delivered count. -/
def RouteResult.returned_int (r : RouteResult) : Nat :=
  if r.returned then 1 else 0

/-- `MessageRouter._route_to_specific_client`: look the recipient up,
attempt the write, prune the recipient on failure. -/
def MessageRouter.route_to_specific_client (m : ConnectionManager) (e : Envelope) :
    RouteResult :=
  match m.get_connection e.recipient with
  | none => ⟨false, [], [], m⟩
  | some conn =>
    if conn.send_envelope e then ⟨true, [e.recipient], [e.recipient], m⟩
    else ⟨false, [e.recipient], [], (m.remove_connection e.recipient).2⟩

/-- `MessageRouter._get_message_broadcast_targets`: audience by sender kind,
message kind and env id. -/
def MessageRouter.get_message_broadcast_targets (m : ConnectionManager) (e : Envelope) :
    List (String × Connection) :=
  match m.get_connection e.sender with
  | none => []
  | some sconn =>
    let sinfo := sconn.client_info
    match e.message with
    | .event _ _ _ =>
      match sinfo.client_type with
      | .environment =>
          if pyTruthy sinfo.env_id then m.get_connections_by_env (sinfo.env_id.getD "")
          else m.get_all_connections
      | .human => m.get_all_connections
      | .agent =>
          if pyTruthy sinfo.env_id then m.get_connections_by_env (sinfo.env_id.getD "")
          else []
    | .stream _ _ _ _ =>
      match sinfo.client_type with
      | .human => m.get_all_connections
      | _ =>
          if pyTruthy sinfo.env_id then m.get_connections_by_env (sinfo.env_id.getD "")
          else []
    | .action _ _ _ | .outcome _ _ _ =>
      if pyTruthy sinfo.env_id then
        (m.get_connections_by_env (sinfo.env_id.getD "")).filter
          (fun p => p.2.client_info.client_type != sinfo.client_type)
      else []
    | _ => []

/-- `MessageRouter._get_broadcast_targets`: heartbeat and error envelopes
are never broadcast; message envelopes fan out per message kind. -/
def MessageRouter.get_broadcast_targets (m : ConnectionManager) (e : Envelope) :
    List (String × Connection) :=
  match e.envelope_type with
  | .heartbeat => []
  | .error => []
  | .message => MessageRouter.get_message_broadcast_targets m e

/-- `MessageRouter._route_broadcast`: write to every target except the
sender, count successes, prune failures, and return `success_count > 0`. -/
def MessageRouter.route_broadcast (m : ConnectionManager) (e : Envelope) : RouteResult :=
  let targets := MessageRouter.get_broadcast_targets m e
  if targets.isEmpty then ⟨false, [], [], m⟩
  else
    let nonSelf := targets.filter (fun p => p.1 != e.sender)
    let delivered := (nonSelf.filter (fun p => p.2.send_envelope e)).map (fun p => p.1)
    let failed := (nonSelf.filter (fun p => !(p.2.send_envelope e))).map (fun p => p.1)
    let m2 := failed.foldl (fun acc cid => (acc.remove_connection cid).2) m
    ⟨decide (0 < delivered.length), nonSelf.map (fun p => p.1), delivered, m2⟩

/-- `MessageRouter.route_envelope`: a truthy recipient other than the
literal "broadcast" is point-to-point; everything else is a broadcast. (The
sender-heartbeat touch at the top only updates a timestamp and is not part
of any routed-delivery observable.) -/
def MessageRouter.route_envelope (m : ConnectionManager) (e : Envelope) : RouteResult :=
  if e.recipient != "" && e.recipient != "broadcast" then
    MessageRouter.route_to_specific_client m e
  else
    MessageRouter.route_broadcast m e

/-! ## C2, C3: routing of heartbeats and the route return value -/

/-- C2 (counterexample): the claim "route delivers a heartbeat envelope to
no connection regardless of the recipient field" fails for a heartbeat with
a concrete recipient: `route_envelope` checks the envelope type only on the
broadcast path, so the heartbeat is written to the recipient (one send
attempted, one delivery). -/
theorem C2_counterexample :
    (MessageRouter.route_envelope
        (ConnectionManager.empty.add_connection true ⟨"b", .agent, none, none⟩).2
        ⟨.heartbeat, "a", "b", .heartbeatInfo "alive" none, "e1", 0⟩).attempted = ["b"] ∧
    (MessageRouter.route_envelope
        (ConnectionManager.empty.add_connection true ⟨"b", .agent, none, none⟩).2
        ⟨.heartbeat, "a", "b", .heartbeatInfo "alive" none, "e1", 0⟩).delivered = ["b"] := by
  decide

/-- C2 (amended): a heartbeat envelope whose recipient is empty or the
literal "broadcast" is delivered to no connection: no send is attempted,
the call returns False, and the registry is untouched. (A heartbeat with a
concrete recipient is forwarded point-to-point like any other envelope.) -/
theorem C2_amended (m : ConnectionManager) (e : Envelope)
    (hh : e.envelope_type = .heartbeat)
    (hr : e.recipient = "" ∨ e.recipient = "broadcast") :
    MessageRouter.route_envelope m e = ⟨false, [], [], m⟩ := by
  rcases hr with hr | hr <;>
    simp [MessageRouter.route_envelope, hr, MessageRouter.route_broadcast,
      MessageRouter.get_broadcast_targets, hh]

/-- C2 witness: a broadcast heartbeat on the empty registry. -/
theorem C2_amended_witness :
    MessageRouter.route_envelope ConnectionManager.empty
        ⟨.heartbeat, "a", "broadcast", .heartbeatInfo "alive" none, "e1", 0⟩ =
      ⟨false, [], [], ConnectionManager.empty⟩ :=
  C2_amended ConnectionManager.empty
    ⟨.heartbeat, "a", "broadcast", .heartbeatInfo "alive" none, "e1", 0⟩ rfl (Or.inr rfl)

/-- C3 (counterexample): the claim "route returns the count of successful
writes, so a broadcast reaching n ≥ 2 peers returns n" fails: an
environment's broadcast event delivered to two same-env agents returns
True, i.e. 1 as an int, not 2. -/
theorem C3_counterexample :
    (MessageRouter.route_envelope
        (((ConnectionManager.empty.add_connection true
              ⟨"env1", .environment, some "E", none⟩).2.add_connection true
              ⟨"a1", .agent, some "E", none⟩).2.add_connection true
              ⟨"a2", .agent, some "E", none⟩).2
        ⟨.message, "env1", "broadcast", .event "tick" "evt_1" .objNil, "e1", 0⟩).delivered.length = 2 ∧
    (MessageRouter.route_envelope
        (((ConnectionManager.empty.add_connection true
              ⟨"env1", .environment, some "E", none⟩).2.add_connection true
              ⟨"a1", .agent, some "E", none⟩).2.add_connection true
              ⟨"a2", .agent, some "E", none⟩).2
        ⟨.message, "env1", "broadcast", .event "tick" "evt_1" .objNil, "e1", 0⟩).returned_int = 1 := by
  decide

/-- C3 (amended): `route_envelope` returns a Boolean — whether at least one
write succeeded — not a count; read as a Python int it equals
min(delivered, 1), so it coincides with the delivered count exactly when at
most one delivery happens (concrete recipient present/absent/failed,
empty broadcast), and collapses every n ≥ 2 broadcast to 1. -/
theorem C3_amended (m : ConnectionManager) (e : Envelope) :
    (MessageRouter.route_envelope m e).returned_int =
      min (MessageRouter.route_envelope m e).delivered.length 1 := by
  unfold MessageRouter.route_envelope
  split
  · unfold MessageRouter.route_to_specific_client
    cases m.get_connection e.recipient with
    | none => simp [RouteResult.returned_int]
    | some conn =>
        by_cases hs : conn.send_envelope e = true <;>
          simp [hs, RouteResult.returned_int]
  · unfold MessageRouter.route_broadcast
    by_cases he : (MessageRouter.get_broadcast_targets m e).isEmpty = true
    · simp [he, RouteResult.returned_int]
    · simp only [he, Bool.false_eq_true, if_false, RouteResult.returned_int]
      split <;> rename_i h <;>
        simp only [decide_eq_true_eq, decide_eq_false_iff_not] at h <;> omega

/-! ## C5: registry index agreement -/

lemma dictLookup_append {α : Type} (xs ys : List (String × α)) (key : String) :
    dictLookup (xs ++ ys) key =
      match dictLookup xs key with
      | some v => some v
      | none => dictLookup ys key := by
  induction xs with
  | nil => simp [dictLookup]
  | cons p rest ih =>
      by_cases hk : p.1 = key <;> simp [dictLookup, hk, ih]

lemma dictLookup_filter_ne {α : Type} (xs : List (String × α)) (cid key : String) :
    dictLookup (xs.filter (fun p => p.1 != cid)) key =
      if key = cid then none else dictLookup xs key := by
  induction xs with
  | nil => simp [dictLookup]
  | cons p rest ih =>
      rw [List.filter_cons]
      by_cases hk : p.1 = key <;> by_cases hc : p.1 = cid <;>
        simp_all [dictLookup, bne_iff_ne]

lemma dictLookup_map_update {α : Type} (xs : List (String × α)) (env : String)
    (f : α → α) (key : String) :
    dictLookup (xs.map (fun p => if p.1 = env then (p.1, f p.2) else p)) key =
      if key = env then (dictLookup xs key).map f else dictLookup xs key := by
  induction xs with
  | nil => simp [dictLookup]
  | cons p rest ih =>
      obtain ⟨pk, pv⟩ := p
      simp only [List.map_cons]
      by_cases he : pk = env
      · rw [if_pos he]
        by_cases hk : pk = key
        · have hke : key = env := hk ▸ he
          simp only [dictLookup, if_pos hk, if_pos hke]
          rfl
        · have hke : ¬key = env := fun h => hk (by rw [he, h])
          simp only [dictLookup, if_neg hk, ih, if_neg hke]
      · rw [if_neg he]
        by_cases hk : pk = key
        · have hke : ¬key = env := fun h => he (by rw [hk, h])
          simp only [dictLookup, if_pos hk, if_neg hke]
        · simp only [dictLookup, if_neg hk]
          exact ih

lemma dictLookup_map_const {α : Type} (xs : List (String × α)) (env : String)
    (s : α) (key : String) :
    dictLookup (xs.map (fun p => if p.1 = env then (p.1, s) else p)) key =
      if key = env then (dictLookup xs key).map (fun _ => s) else dictLookup xs key := by
  induction xs with
  | nil => simp [dictLookup]
  | cons p rest ih =>
      obtain ⟨pk, pv⟩ := p
      simp only [List.map_cons]
      by_cases he : pk = env
      · rw [if_pos he]
        by_cases hk : pk = key
        · have hke : key = env := hk ▸ he
          simp only [dictLookup, if_pos hk, if_pos hke]
          rfl
        · have hke : ¬key = env := fun h => hk (by rw [he, h])
          simp only [dictLookup, if_neg hk, ih, if_neg hke]
      · rw [if_neg he]
        by_cases hk : pk = key
        · have hke : ¬key = env := fun h => he (by rw [hk, h])
          simp only [dictLookup, if_pos hk, if_neg hke]
        · simp only [dictLookup, if_neg hk]
          exact ih

lemma mem_setAdd (s : List String) (id x : String) :
    x ∈ setAdd s id ↔ x ∈ s ∨ x = id := by
  by_cases h : id ∈ s
  · simp [setAdd, h]
    intro hx
    subst hx
    exact h
  · simp [setAdd, h]

lemma mem_setDiscard (s : List String) (id x : String) :
    x ∈ setDiscard s id ↔ x ∈ s ∧ x ≠ id := by
  simp [setDiscard, List.mem_filter, bne_iff_ne]

lemma withTypeIndex_type_index (m : ConnectionManager) (t0 : ClientType)
    (f : List String → List String) (t : ClientType) :
    (m.withTypeIndex t0 f).type_index t =
      if t = t0 then f (m.type_index t) else m.type_index t := by
  cases t <;> cases t0 <;>
    simp [ConnectionManager.withTypeIndex, ConnectionManager.type_index]

lemma withTypeIndex_connections (m : ConnectionManager) (t0 : ClientType)
    (f : List String → List String) :
    (m.withTypeIndex t0 f).connections = m.connections := by
  cases t0 <;> simp [ConnectionManager.withTypeIndex]

lemma withTypeIndex_env_index (m : ConnectionManager) (t0 : ClientType)
    (f : List String → List String) :
    (m.withTypeIndex t0 f).env_index = m.env_index := by
  cases t0 <;> simp [ConnectionManager.withTypeIndex]

lemma type_index_update (m : ConnectionManager) (c : List (String × Connection))
    (ei : List (String × List String)) (t : ClientType) :
    ({ m with connections := c, env_index := ei }).type_index t = m.type_index t := by
  cases t <;> rfl

/-- One registry operation: the websocket argument of `add_connection` is
abstracted to `send_ok`. -/
inductive ManagerOp where
  | add (send_ok : Bool) (info : ClientInfo)
  | remove (cid : String)
deriving DecidableEq, Repr

/-- Apply one operation, discarding the Boolean status result. -/
def ManagerOp.apply (m : ConnectionManager) : ManagerOp → ConnectionManager
  | .add sok info => (m.add_connection sok info).2
  | .remove cid => (m.remove_connection cid).2

/-- Run a sequence of add/remove operations from a fresh registry. -/
def applyOps (ops : List ManagerOp) : ConnectionManager :=
  ops.foldl ManagerOp.apply ConnectionManager.empty

lemma add_connection_dup (m : ConnectionManager) (sok : Bool) (info : ClientInfo)
    (h : (dictLookup m.connections info.client_id).isSome = true) :
    (m.add_connection sok info).2 = m := by
  simp [ConnectionManager.add_connection, h]

lemma add_connection_lookup (m : ConnectionManager) (sok : Bool) (info : ClientInfo)
    (h : dictLookup m.connections info.client_id = none) (id : String) :
    dictLookup (m.add_connection sok info).2.connections id =
      if id = info.client_id then some (Connection.mk sok info)
      else dictLookup m.connections id := by
  simp only [ConnectionManager.add_connection, h, Option.isSome_none,
    Bool.false_eq_true, if_false, withTypeIndex_connections]
  rw [dictLookup_append]
  by_cases hid : id = info.client_id
  · subst hid
    simp [h, dictLookup]
  · cases hm : dictLookup m.connections id <;>
      simp [dictLookup, hid, Ne.symm hid]

lemma add_connection_type_mem (m : ConnectionManager) (sok : Bool) (info : ClientInfo)
    (h : dictLookup m.connections info.client_id = none) (t : ClientType) (x : String) :
    x ∈ (m.add_connection sok info).2.type_index t ↔
      x ∈ m.type_index t ∨ (x = info.client_id ∧ t = info.client_type) := by
  simp only [ConnectionManager.add_connection, h, Option.isSome_none,
    Bool.false_eq_true, if_false]
  rw [withTypeIndex_type_index]
  by_cases ht : t = info.client_type
  · rw [if_pos ht, type_index_update, mem_setAdd]
    simp [ht]
  · rw [if_neg ht, type_index_update]
    simp [ht]

lemma add_connection_env_mem (m : ConnectionManager) (sok : Bool) (info : ClientInfo)
    (h : dictLookup m.connections info.client_id = none) (e : String) (x : String) :
    x ∈ (m.add_connection sok info).2.env_ids e ↔
      x ∈ m.env_ids e ∨
        (x = info.client_id ∧ pyTruthy info.env_id = true ∧ e = info.env_id.getD "") := by
  simp only [ConnectionManager.add_connection, h, Option.isSome_none,
    Bool.false_eq_true, if_false, ConnectionManager.env_ids, withTypeIndex_env_index]
  by_cases hp : pyTruthy info.env_id = true
  · simp only [hp, if_true, true_and]
    cases hl : dictLookup m.env_index (info.env_id.getD "") with
    | none =>
        rw [dictLookup_append]
        by_cases he : e = info.env_id.getD ""
        · subst he
          simp [hl, dictLookup, ConnectionManager.env_ids, setAdd]
        · cases hle : dictLookup m.env_index e <;>
            simp_all [dictLookup, he, Ne.symm he]
    | some s0 =>
        dsimp only
        rw [dictLookup_map_update m.env_index (info.env_id.getD "")
          (fun s => setAdd s info.client_id) e]
        by_cases he : e = info.env_id.getD ""
        · subst he
          simp [hl, mem_setAdd]
        · simp [he]
  · have hp2 : pyTruthy info.env_id = false := by
      cases hb : pyTruthy info.env_id
      · rfl
      · exact absurd hb hp
    simp [hp2]

lemma remove_connection_absent (m : ConnectionManager) (cid : String)
    (h : dictLookup m.connections cid = none) :
    (m.remove_connection cid).2 = m := by
  simp [ConnectionManager.remove_connection, h]

lemma remove_connection_lookup (m : ConnectionManager) (cid : String)
    (conn : Connection) (h : dictLookup m.connections cid = some conn) (id : String) :
    dictLookup (m.remove_connection cid).2.connections id =
      if id = cid then none else dictLookup m.connections id := by
  simp only [ConnectionManager.remove_connection, h, withTypeIndex_connections]
  exact dictLookup_filter_ne m.connections cid id

lemma remove_connection_type_mem (m : ConnectionManager) (cid : String)
    (conn : Connection) (h : dictLookup m.connections cid = some conn)
    (t : ClientType) (x : String) :
    x ∈ (m.remove_connection cid).2.type_index t ↔
      x ∈ m.type_index t ∧ ¬(x = cid ∧ t = conn.client_info.client_type) := by
  simp only [ConnectionManager.remove_connection, h]
  rw [withTypeIndex_type_index]
  by_cases ht : t = conn.client_info.client_type
  · rw [if_pos ht, type_index_update, mem_setDiscard]
    simp [ht]
  · rw [if_neg ht, type_index_update]
    simp [ht]

lemma remove_connection_env_mem (m : ConnectionManager) (cid : String)
    (conn : Connection) (h : dictLookup m.connections cid = some conn)
    (e : String) (x : String) :
    x ∈ (m.remove_connection cid).2.env_ids e ↔
      x ∈ m.env_ids e ∧
        ¬(x = cid ∧ pyTruthy conn.client_info.env_id = true ∧
          e = conn.client_info.env_id.getD "") := by
  simp only [ConnectionManager.remove_connection, h, ConnectionManager.env_ids,
    withTypeIndex_env_index]
  by_cases hp : pyTruthy conn.client_info.env_id = true
  · simp only [hp, Bool.true_and, true_and]
    cases hl : dictLookup m.env_index (conn.client_info.env_id.getD "") with
    | none =>
        simp only [Option.isSome_none, Bool.false_eq_true, if_false]
        by_cases he : e = conn.client_info.env_id.getD ""
        · subst he
          simp [hl]
        · simp [he, Ne.symm he]
    | some s0 =>
        simp only [Option.isSome_some, if_true, Option.getD_some]
        by_cases hemp : (setDiscard s0 cid).isEmpty = true
        · rw [if_pos hemp, dictLookup_filter_ne]
          by_cases he : e = conn.client_info.env_id.getD ""
          · subst he
            have hsub : ∀ y, y ∈ s0 → y = cid := by
              intro y hy
              by_contra hne
              have : y ∈ setDiscard s0 cid := (mem_setDiscard s0 cid y).2 ⟨hy, hne⟩
              rw [List.isEmpty_iff] at hemp
              rw [hemp] at this
              cases this
            simp only [if_pos rfl, hl]
            constructor
            · intro hx
              cases hx
            · rintro ⟨hx, hnot⟩
              exact absurd ⟨hsub x hx, trivial⟩ hnot
          · rw [if_neg he]
            simp [he, Ne.symm he]
        · rw [if_neg hemp, dictLookup_map_const]
          by_cases he : e = conn.client_info.env_id.getD ""
          · subst he
            simp [hl, mem_setDiscard]
          · simp [he, Ne.symm he]
  · have hp2 : pyTruthy conn.client_info.env_id = false := by
      cases hb : pyTruthy conn.client_info.env_id
      · rfl
      · exact absurd hb hp
    simp [hp2]

/-- Bridge between Python truthiness of env_id and the spec-level "has a
non-empty env_id" condition. -/
lemma pyTruthy_iff (o : Option String) (e : String) :
    (pyTruthy o = true ∧ e = o.getD "") ↔ (o = some e ∧ e ≠ "") := by
  cases o with
  | none => simp [pyTruthy]
  | some s =>
      simp only [pyTruthy, Bool.not_eq_true', beq_eq_false_iff_ne, Option.getD_some,
        Option.some_inj]
      constructor
      · rintro ⟨h1, h2⟩
        exact ⟨h2.symm, h2 ▸ h1⟩
      · rintro ⟨h1, h2⟩
        exact ⟨h1 ▸ h2, h1.symm⟩

/-- The three indices agree: an id in the primary map is in exactly the type
index of its kind and, precisely when its env_id is a non-empty string, in
the env index for it; an id absent from the primary map is in no index. -/
def managerAgree (m : ConnectionManager) : Prop :=
  (∀ id conn, dictLookup m.connections id = some conn →
      (∀ t, id ∈ m.type_index t ↔ t = conn.client_info.client_type) ∧
      (∀ e, id ∈ m.env_ids e ↔ conn.client_info.env_id = some e ∧ e ≠ "")) ∧
  (∀ id, dictLookup m.connections id = none →
      (∀ t, id ∉ m.type_index t) ∧ (∀ e, id ∉ m.env_ids e))

lemma managerAgree_empty : managerAgree ConnectionManager.empty := by
  constructor
  · intro id conn h
    simp [ConnectionManager.empty, dictLookup] at h
  · intro id _
    constructor
    · intro t
      cases t <;> simp [ConnectionManager.empty, ConnectionManager.type_index]
    · intro e
      simp [ConnectionManager.empty, ConnectionManager.env_ids, dictLookup]

lemma managerAgree_add (m : ConnectionManager) (sok : Bool) (info : ClientInfo)
    (h : managerAgree m) : managerAgree (m.add_connection sok info).2 := by
  by_cases hdup : (dictLookup m.connections info.client_id).isSome = true
  · rw [add_connection_dup m sok info hdup]
    exact h
  · have h0 : dictLookup m.connections info.client_id = none := by
      cases hc : dictLookup m.connections info.client_id
      · rfl
      · rw [hc] at hdup
        simp at hdup
    constructor
    · intro id conn hlook
      rw [add_connection_lookup m sok info h0 id] at hlook
      by_cases hid : id = info.client_id
      · rw [if_pos hid] at hlook
        injection hlook with hconn
        subst hconn
        subst hid
        have hnone := h.2 info.client_id h0
        constructor
        · intro t
          rw [add_connection_type_mem m sok info h0 t info.client_id]
          constructor
          · rintro (hmem | ⟨-, ht⟩)
            · exact absurd hmem (hnone.1 t)
            · exact ht
          · intro ht
            exact Or.inr ⟨rfl, ht⟩
        · intro e
          rw [add_connection_env_mem m sok info h0 e info.client_id]
          rw [show (Connection.mk sok info).client_info = info from rfl]
          rw [← pyTruthy_iff info.env_id e]
          constructor
          · rintro (hmem | ⟨-, hpt, he⟩)
            · exact absurd hmem (hnone.2 e)
            · exact ⟨hpt, he⟩
          · rintro ⟨hpt, he⟩
            exact Or.inr ⟨rfl, hpt, he⟩
      · rw [if_neg hid] at hlook
        obtain ⟨hT, hE⟩ := h.1 id conn hlook
        constructor
        · intro t
          rw [add_connection_type_mem m sok info h0 t id]
          constructor
          · rintro (hmem | ⟨hcid, -⟩)
            · exact (hT t).1 hmem
            · exact absurd hcid hid
          · intro ht
            exact Or.inl ((hT t).2 ht)
        · intro e
          rw [add_connection_env_mem m sok info h0 e id]
          constructor
          · rintro (hmem | ⟨hcid, -⟩)
            · exact (hE e).1 hmem
            · exact absurd hcid hid
          · intro he
            exact Or.inl ((hE e).2 he)
    · intro id hlook
      rw [add_connection_lookup m sok info h0 id] at hlook
      by_cases hid : id = info.client_id
      · rw [if_pos hid] at hlook
        cases hlook
      · rw [if_neg hid] at hlook
        obtain ⟨hT, hE⟩ := h.2 id hlook
        constructor
        · intro t
          rw [add_connection_type_mem m sok info h0 t id]
          rintro (hmem | ⟨hcid, -⟩)
          · exact hT t hmem
          · exact hid hcid
        · intro e
          rw [add_connection_env_mem m sok info h0 e id]
          rintro (hmem | ⟨hcid, -⟩)
          · exact hE e hmem
          · exact hid hcid

lemma managerAgree_remove (m : ConnectionManager) (cid : String)
    (h : managerAgree m) : managerAgree (m.remove_connection cid).2 := by
  cases hc : dictLookup m.connections cid with
  | none =>
      rw [remove_connection_absent m cid hc]
      exact h
  | some conn0 =>
    constructor
    · intro id conn hlook
      rw [remove_connection_lookup m cid conn0 hc id] at hlook
      by_cases hid : id = cid
      · rw [if_pos hid] at hlook
        cases hlook
      · rw [if_neg hid] at hlook
        obtain ⟨hT, hE⟩ := h.1 id conn hlook
        constructor
        · intro t
          rw [remove_connection_type_mem m cid conn0 hc t id]
          constructor
          · rintro ⟨hmem, -⟩
            exact (hT t).1 hmem
          · intro ht
            exact ⟨(hT t).2 ht, fun hx => hid hx.1⟩
        · intro e
          rw [remove_connection_env_mem m cid conn0 hc e id]
          constructor
          · rintro ⟨hmem, -⟩
            exact (hE e).1 hmem
          · intro he
            exact ⟨(hE e).2 he, fun hx => hid hx.1⟩
    · intro id hlook
      rw [remove_connection_lookup m cid conn0 hc id] at hlook
      by_cases hid : id = cid
      · subst hid
        obtain ⟨hT, hE⟩ := h.1 id conn0 hc
        constructor
        · intro t
          rw [remove_connection_type_mem m id conn0 hc t id]
          rintro ⟨hmem, hnot⟩
          exact hnot ⟨rfl, (hT t).1 hmem⟩
        · intro e
          rw [remove_connection_env_mem m id conn0 hc e id]
          rintro ⟨hmem, hnot⟩
          have he := (hE e).1 hmem
          refine hnot ⟨rfl, ?_, ?_⟩
          · rw [he.1]
            simp [pyTruthy, he.2]
          · rw [he.1]
            rfl
      · rw [if_neg hid] at hlook
        obtain ⟨hT, hE⟩ := h.2 id hlook
        constructor
        · intro t
          rw [remove_connection_type_mem m cid conn0 hc t id]
          rintro ⟨hmem, -⟩
          exact hT t hmem
        · intro e
          rw [remove_connection_env_mem m cid conn0 hc e id]
          rintro ⟨hmem, -⟩
          exact hE e hmem

lemma managerAgree_step (m : ConnectionManager) (op : ManagerOp)
    (h : managerAgree m) : managerAgree (ManagerOp.apply m op) := by
  cases op with
  | add sok info => exact managerAgree_add m sok info h
  | remove cid => exact managerAgree_remove m cid h

lemma managerAgree_applyOps (ops : List ManagerOp) : managerAgree (applyOps ops) := by
  have H : ∀ (l : List ManagerOp) (m : ConnectionManager), managerAgree m →
      managerAgree (l.foldl ManagerOp.apply m) := by
    intro l
    induction l with
    | nil => intro m hm; exact hm
    | cons op rest ih => intro m hm; exact ih _ (managerAgree_step m op hm)
  exact H ops ConnectionManager.empty managerAgree_empty

/-- C5 (counterexample): the claim's index agreement fails for a client
whose ClientInfo has the env_id some "": after add_connection from the
empty registry it is in the primary map (so it "has an env_id"), but
add_connection's truthiness test skips the env index, so it is not in the
env index for that env_id. -/
theorem C5_counterexample :
    dictLookup (applyOps [ManagerOp.add true ⟨"c1", .agent, some "", none⟩]).connections "c1" =
      some (Connection.mk true ⟨"c1", .agent, some "", none⟩) ∧
    "c1" ∉ (applyOps [ManagerOp.add true ⟨"c1", .agent, some "", none⟩]).env_ids "" := by
  decide

/-- C5 (amended): for every sequence of add_connection/remove_connection
operations from the empty registry, the indices agree in the reachable
state: an id in the primary map is in exactly the type index of its
client_type and, precisely when its env_id is a non-empty string, in the
env index for that env_id; an id absent from the primary map (in
particular, just removed) is in no type index and no env index. -/
theorem C5_indices_agree_amended (ops : List ManagerOp) (id : String) :
    match dictLookup (applyOps ops).connections id with
    | some conn =>
        (∀ t, id ∈ (applyOps ops).type_index t ↔ t = conn.client_info.client_type) ∧
        (∀ e, id ∈ (applyOps ops).env_ids e ↔
          conn.client_info.env_id = some e ∧ e ≠ "")
    | none =>
        (∀ t, id ∉ (applyOps ops).type_index t) ∧
        (∀ e, id ∉ (applyOps ops).env_ids e) := by
  have h := managerAgree_applyOps ops
  cases hm : dictLookup (applyOps ops).connections id with
  | some conn => exact h.1 id conn hm
  | none => exact h.2 id hm

/-! ## C6: action/outcome broadcast audience -/

/-- Message kinds to which the router's same-env different-kind broadcast
rule applies. -/
def Message.isActionOrOutcome : Message → Bool
  | .action _ _ _ => true
  | .outcome _ _ _ => true
  | _ => false

lemma mem_get_connections_by_env (m : ConnectionManager) (env id : String)
    (c : Connection) :
    (id, c) ∈ m.get_connections_by_env env ↔
      id ∈ m.env_ids env ∧ dictLookup m.connections id = some c := by
  simp only [ConnectionManager.get_connections_by_env, List.mem_filterMap]
  constructor
  · rintro ⟨a, ha, hf⟩
    rw [Option.map_eq_some'] at hf
    obtain ⟨c0, hl, heq⟩ := hf
    simp only [Prod.mk.injEq] at heq
    obtain ⟨h1, h2⟩ := heq
    subst h1
    subst h2
    exact ⟨ha, hl⟩
  · rintro ⟨hmem, hl⟩
    refine ⟨id, hmem, ?_⟩
    rw [hl]
    rfl

/-- C6: for a broadcast message envelope carrying an action or outcome from
a registered non-human sender, the target set of
`_get_message_broadcast_targets` is exactly the registered connections whose
env_id equals the sender's (non-empty) env_id and whose client_type differs
from the sender's; it is empty when the sender's env_id is falsy (absent or
empty). -/
theorem C6_action_broadcast_targets (ops : List ManagerOp) (e : Envelope)
    (sconn : Connection)
    (hs : (applyOps ops).get_connection e.sender = some sconn)
    (_hkind : sconn.client_info.client_type ≠ ClientType.human)
    (hmsg : e.message.isActionOrOutcome = true) :
    (∀ env, sconn.client_info.env_id = some env → env ≠ "" →
      ∀ id c,
        (id, c) ∈ MessageRouter.get_message_broadcast_targets (applyOps ops) e ↔
          dictLookup (applyOps ops).connections id = some c ∧
          c.client_info.env_id = some env ∧
          c.client_info.client_type ≠ sconn.client_info.client_type) ∧
    (pyTruthy sconn.client_info.env_id = false →
      MessageRouter.get_message_broadcast_targets (applyOps ops) e = []) := by
  have hinv := managerAgree_applyOps ops
  constructor
  · intro env henv hne id c
    have hpt : pyTruthy sconn.client_info.env_id = true := by
      rw [henv]
      simp [pyTruthy, hne]
    have hgd : sconn.client_info.env_id.getD "" = env := by
      rw [henv]
      rfl
    cases hm : e.message <;> simp [Message.isActionOrOutcome, hm] at hmsg <;>
      · simp only [MessageRouter.get_message_broadcast_targets, hs, hm, hpt, if_true,
          List.mem_filter, mem_get_connections_by_env, hgd, bne_iff_ne, ne_eq,
          decide_not, Bool.not_eq_eq_eq_not, Bool.not_true, decide_eq_false_iff_not]
        constructor
        · rintro ⟨⟨hmem, hl⟩, hty⟩
          have := (hinv.1 id c hl).2 env
          exact ⟨hl, (this.1 hmem).1, hty⟩
        · rintro ⟨hl, hce, hty⟩
          have := (hinv.1 id c hl).2 env
          exact ⟨⟨this.2 ⟨hce, hne⟩, hl⟩, hty⟩
  · intro hfalse
    cases hm : e.message <;> simp [Message.isActionOrOutcome, hm] at hmsg <;>
      simp [MessageRouter.get_message_broadcast_targets, hs, hm, hfalse]

/-- C6 witness: in a registry with environment env1 and agents a1, a2 all in
env E, for a1's broadcast action the characterisation instantiated at env1
holds (env1 is a target because it is same-env and different-kind). -/
theorem C6_action_broadcast_targets_witness :
    (("env1", Connection.mk true ⟨"env1", .environment, some "E", none⟩) ∈
        MessageRouter.get_message_broadcast_targets
          (applyOps [ManagerOp.add true ⟨"env1", .environment, some "E", none⟩,
            ManagerOp.add true ⟨"a1", .agent, some "E", none⟩,
            ManagerOp.add true ⟨"a2", .agent, some "E", none⟩])
          ⟨.message, "a1", "broadcast", .action "move" "act_1" .objNil, "e2", 0⟩ ↔
      dictLookup (applyOps [ManagerOp.add true ⟨"env1", .environment, some "E", none⟩,
            ManagerOp.add true ⟨"a1", .agent, some "E", none⟩,
            ManagerOp.add true ⟨"a2", .agent, some "E", none⟩]).connections "env1" =
          some (Connection.mk true ⟨"env1", .environment, some "E", none⟩) ∧
        (Connection.mk true ⟨"env1", .environment, some "E", none⟩).client_info.env_id =
          some "E" ∧
        (Connection.mk true ⟨"env1", .environment, some "E", none⟩).client_info.client_type ≠
          (Connection.mk true
            ⟨"a1", .agent, some "E", none⟩).client_info.client_type) :=
  (C6_action_broadcast_targets
    [ManagerOp.add true ⟨"env1", .environment, some "E", none⟩,
      ManagerOp.add true ⟨"a1", .agent, some "E", none⟩,
      ManagerOp.add true ⟨"a2", .agent, some "E", none⟩]
    ⟨.message, "a1", "broadcast", .action "move" "act_1" .objNil, "e2", 0⟩
    (Connection.mk true ⟨"a1", .agent, some "E", none⟩)
    (by decide) (by decide) (by decide)).1 "E" rfl (by decide) "env1"
    (Connection.mk true ⟨"env1", .environment, some "E", none⟩)

/-! ## star_protocol_v4/client/context.py -/

/-- `ContextStatus` enum. -/
inductive ContextStatus where
  | pending
  | completed
  | timeout
  | error
deriving DecidableEq, Repr

/-- The `asyncio.Future` of a context item: not yet resolved, resolved with
a result message, or resolved with an exception (carried as a tag string;
`timeout_expired` sets an `asyncio.TimeoutError`). -/
inductive FutureState where
  | unset
  | result (v : Message)
  | exn (reason : String)
deriving DecidableEq, Repr

/-- Python truthiness of `Optional[float]` (`if self.completed_at:` —
`None` and `0.0` are both falsy). -/
def pyTruthyNum : Option Int → Bool
  | none => false
  | some n => !(n == 0)

/-- `ContextItem` dataclass; `callback` keeps only whether a callback is
attached (its body is opaque to the state machine). -/
structure ContextItem where
  request_id : String
  request_type : String
  request_data : Json
  status : ContextStatus := .pending
  created_at : Int
  completed_at : Option Int := none
  timeout : Int := 30
  future : FutureState := .unset
  callback : Bool := false
  metadata : Json := Json.objNil
deriving DecidableEq, Repr

/-- `ContextItem.elapsed_time`: time of a completed item is frozen at
`completed_at - created_at`; otherwise it is `now - created_at`. -/
def ContextItem.elapsed_time (it : ContextItem) (now : Int) : Int :=
  if pyTruthyNum it.completed_at then it.completed_at.getD 0 - it.created_at
  else now - it.created_at

/-- `ContextItem.is_expired`. -/
def ContextItem.is_expired (it : ContextItem) (now : Int) : Bool :=
  it.elapsed_time now > it.timeout

/-- `ContextItem.complete`: no-op unless pending; otherwise set status,
completion time, and resolve the future if unresolved. -/
def ContextItem.complete (it : ContextItem) (result : Message) (now : Int) : ContextItem :=
  if it.status ≠ ContextStatus.pending then it
  else
    { it with
      status := .completed
      completed_at := some now
      future := if it.future = .unset then .result result else it.future }

/-- `ContextItem.error`: no-op unless pending. -/
def ContextItem.error (it : ContextItem) (reason : String) (now : Int) : ContextItem :=
  if it.status ≠ ContextStatus.pending then it
  else
    { it with
      status := .error
      completed_at := some now
      future := if it.future = .unset then .exn reason else it.future }

/-- `ContextItem.timeout_expired`: no-op unless pending; resolves the future
with an `asyncio.TimeoutError`. -/
def ContextItem.timeout_expired (it : ContextItem) (now : Int) : ContextItem :=
  if it.status ≠ ContextStatus.pending then it
  else
    { it with
      status := .timeout
      completed_at := some now
      future := if it.future = .unset then .exn "TimeoutError" else it.future }

/-- Python dict assignment `d[key] = v`: overwrite in place, or append a new
key at the end. -/
def dictSet {α : Type} (xs : List (String × α)) (key : String) (v : α) :
    List (String × α) :=
  match dictLookup xs key with
  | some _ => xs.map (fun p => if p.1 = key then (p.1, v) else p)
  | none => xs ++ [(key, v)]

/-- The `_type_mapping` update of `create_request_context`: create the set
on first use, then add. -/
def setMapAdd (idx : List (String × List String)) (key id : String) :
    List (String × List String) :=
  match dictLookup idx key with
  | none => idx ++ [(key, [id])]
  | some _ => idx.map (fun p => if p.1 = key then (p.1, setAdd p.2 id) else p)

/-- `ClientContext` state: the `_contexts` dict, the `_type_mapping` dict,
and the `_stats` counters. -/
structure ClientContext where
  client_id : String
  default_timeout : Int := 30
  contexts : List (String × ContextItem) := []
  type_mapping : List (String × List String) := []
  stats_total : Nat := 0
  stats_completed : Nat := 0
  stats_timeout : Nat := 0
  stats_error : Nat := 0
deriving DecidableEq, Repr

/-- `_generate_request_id`: client id, request type, millisecond timestamp
and a uuid prefix joined by underscores (`ts` and `uid` are the clock and
uuid oracles). -/
def generate_request_id (client_id request_type : String) (ts : Int) (uid : String) :
    String :=
  client_id ++ "_" ++ request_type ++ "_" ++ toString ts ++ "_" ++ uid

/-- `ClientContext.create_request_context`: build the pending item, store
it, index it by type, bump the total counter, and return it. -/
def ClientContext.create_request_context (ctx : ClientContext) (request_type : String)
    (request_data : Json) (tmo : Option Int) (callback : Bool) (metadata : Option Json)
    (request_id : Option String) (now ts : Int) (uid : String) :
    ContextItem × ClientContext :=
  let rid := request_id.getD (generate_request_id ctx.client_id request_type ts uid)
  let item : ContextItem :=
    { request_id := rid, request_type := request_type, request_data := request_data,
      status := .pending, created_at := now, completed_at := none,
      timeout := tmo.getD ctx.default_timeout, future := .unset,
      callback := callback, metadata := metadata.getD Json.objNil }
  (item,
    { ctx with
      contexts := dictSet ctx.contexts rid item
      type_mapping := setMapAdd ctx.type_mapping request_type rid
      stats_total := ctx.stats_total + 1 })

/-- `ClientContext.complete_request`: False when the id is unknown or the
item is no longer pending (the state is untouched); otherwise complete the
item and bump the counter. (The optional callback scheduling has no effect
on the context state.) -/
def ClientContext.complete_request (ctx : ClientContext) (request_id : String)
    (result : Message) (now : Int) : Bool × ClientContext :=
  match dictLookup ctx.contexts request_id with
  | none => (false, ctx)
  | some item =>
      if item.status ≠ ContextStatus.pending then (false, ctx)
      else
        (true,
          { ctx with
            contexts := dictSet ctx.contexts request_id (item.complete result now)
            stats_completed := ctx.stats_completed + 1 })

/-- `ClientContext.error_request`. -/
def ClientContext.error_request (ctx : ClientContext) (request_id : String)
    (reason : String) (now : Int) : Bool × ClientContext :=
  match dictLookup ctx.contexts request_id with
  | none => (false, ctx)
  | some item =>
      if item.status ≠ ContextStatus.pending then (false, ctx)
      else
        (true,
          { ctx with
            contexts := dictSet ctx.contexts request_id (item.error reason now)
            stats_error := ctx.stats_error + 1 })

/-- The timeout transition: `wait_for_response`'s `TimeoutError` handler
(and the sweeper's pending-expiry branch) call `timeout_expired` on the item
and bump the timeout counter. -/
def ClientContext.mark_timeout (ctx : ClientContext) (request_id : String)
    (now : Int) : ClientContext :=
  match dictLookup ctx.contexts request_id with
  | none => ctx
  | some item =>
      { ctx with
        contexts := dictSet ctx.contexts request_id (item.timeout_expired now)
        stats_timeout := ctx.stats_timeout + 1 }

/-- `ClientContext.remove_context`: pop the item and clean its type-mapping
entry (dropping the type key when its set empties). -/
def ClientContext.remove_context (ctx : ClientContext) (request_id : String) :
    Bool × ClientContext :=
  match dictLookup ctx.contexts request_id with
  | none => (false, ctx)
  | some item =>
      let tm :=
        match dictLookup ctx.type_mapping item.request_type with
        | none => ctx.type_mapping
        | some s =>
            let s2 := setDiscard s request_id
            if s2.isEmpty then
              ctx.type_mapping.filter (fun p => p.1 != item.request_type)
            else
              ctx.type_mapping.map
                (fun p => if p.1 = item.request_type then (p.1, s2) else p)
      (true,
        { ctx with
          contexts := ctx.contexts.filter (fun p => p.1 != request_id)
          type_mapping := tm })

/-- The removal condition of one `_cleanup_expired_contexts` pass: an
expired pending item (which the pass also marks timed out), or a
completed/timeout/error item whose `elapsed_time` exceeds 300 seconds. -/
def cleanupShouldRemove (now : Int) (it : ContextItem) : Bool :=
  (decide (it.status = .pending) && it.is_expired now) ||
  ((decide (it.status = .completed) || decide (it.status = .timeout) ||
      decide (it.status = ContextStatus.error)) &&
    decide (it.elapsed_time now > 300))

/-- The in-loop mutation of the pass: an expired pending item is marked
timed out. -/
def cleanupMark (now : Int) (p : String × ContextItem) : String × ContextItem :=
  if p.2.status = ContextStatus.pending && p.2.is_expired now then
    (p.1, p.2.timeout_expired now)
  else p

/-- `ClientContext._cleanup_expired_contexts`: one pass over the map. Each
item's branch depends only on that item's own (unmutated) state, so the
expired-id collection is computed against the pre-pass state, then the
marks are applied and the collected ids removed, exactly as the source
loop does. -/
def ClientContext.cleanup_expired (ctx : ClientContext) (now : Int) : ClientContext :=
  let expired_ids :=
    (ctx.contexts.filter (fun p => cleanupShouldRemove now p.2)).map (fun p => p.1)
  let marked :=
    { ctx with
      contexts := ctx.contexts.map (cleanupMark now)
      stats_timeout := ctx.stats_timeout +
        (ctx.contexts.filter
          (fun p => decide (p.2.status = ContextStatus.pending) && p.2.is_expired now)).length }
  expired_ids.foldl (fun acc rid => (acc.remove_context rid).2) marked

/-- The value `wait_for_response` hands back once the awaited future is
resolved with a result; `none` means the call would still be blocked or
would raise (timeout / error / unknown id). -/
def ClientContext.await_value (ctx : ClientContext) (request_id : String) :
    Option Message :=
  match dictLookup ctx.contexts request_id with
  | some item =>
      match item.future with
      | .result v => some v
      | _ => none
  | none => none

/-! ## star_protocol_v4/client/base.py (context coupling) -/

/-- `BaseClient._handle_outcome_response`: extract `action_id` from the
outcome message (an `OutcomeMessage` has no `data` attribute, so the
fallback extraction never fires) and, when truthy, complete the matching
context with the outcome message itself. -/
def BaseClient.handle_outcome_response (ctx : ClientContext) (outcome : Message)
    (now : Int) : Bool × ClientContext :=
  match outcome with
  | .outcome aid _ _ =>
      if aid ≠ "" then ctx.complete_request aid outcome now
      else (false, ctx)
  | _ => (false, ctx)

/-- `BaseClient.send_action_with_context` up to the await: create the
context entry (fresh request id from the `ts`/`uid` oracles), build the
action message with `action_id = request_id`, and wrap it in a message
envelope from this client to the recipient (`envFresh`/`envNow` are the
envelope's `__post_init__` oracles). Returns the new context state, the
request id, and the sent envelope. -/
def BaseClient.send_action_with_context (ctx : ClientContext) (action : String)
    (params : Json) (recipient : String) (tmo : Option Int) (now ts : Int)
    (uid : String) (envFresh : String) (envNow : Int) :
    ClientContext × String × Envelope :=
  let cr := ctx.create_request_context "action"
    (Json.mkObj [("action", .str action), ("params", params),
      ("recipient", .str recipient)])
    tmo false none none now ts uid
  let request_id := cr.1.request_id
  (cr.2, request_id,
    ⟨.message, ctx.client_id, recipient, Message.action action request_id params,
      envFresh, envNow⟩)

/-! ## C7: terminal context statuses -/

lemma dictLookup_dictSet {α : Type} (xs : List (String × α)) (k : String) (v : α)
    (key : String) :
    dictLookup (dictSet xs k v) key = if key = k then some v else dictLookup xs key := by
  unfold dictSet
  cases hl : dictLookup xs k with
  | some w =>
      rw [dictLookup_map_const]
      by_cases hk : key = k
      · subst hk
        simp [hl]
      · simp [hk]
  | none =>
      rw [dictLookup_append]
      by_cases hk : key = k
      · subst hk
        simp [hl, dictLookup]
      · cases dictLookup xs key <;> simp [dictLookup, hk, Ne.symm hk]

lemma ContextItem.timeout_expired_nonpending (it : ContextItem) (now : Int)
    (h : it.status ≠ ContextStatus.pending) : it.timeout_expired now = it := by
  simp [ContextItem.timeout_expired, h]

/-- One transition of the request/reply state machine as seen by the
context map: a dispatcher completion, an error, or a timeout mark. -/
inductive ContextOp where
  | complete (request_id : String) (result : Message) (now : Int)
  | error (request_id : String) (reason : String) (now : Int)
  | timeoutMark (request_id : String) (now : Int)
deriving DecidableEq, Repr

/-- Apply one transition, discarding the Boolean status result. -/
def ContextOp.apply (ctx : ClientContext) : ContextOp → ClientContext
  | .complete rid res now => (ctx.complete_request rid res now).2
  | .error rid reason now => (ctx.error_request rid reason now).2
  | .timeoutMark rid now => ctx.mark_timeout rid now

lemma contextOp_preserves_nonpending (ctx : ClientContext) (rid : String)
    (item : ContextItem) (hfound : dictLookup ctx.contexts rid = some item)
    (hnp : item.status ≠ ContextStatus.pending) (op : ContextOp) :
    dictLookup (ContextOp.apply ctx op).contexts rid = some item := by
  cases op with
  | complete rid2 res now =>
      simp only [ContextOp.apply, ClientContext.complete_request]
      cases hl : dictLookup ctx.contexts rid2 with
      | none => exact hfound
      | some item2 =>
          dsimp only
          by_cases hs : item2.status ≠ ContextStatus.pending
          · rw [if_pos hs]
            exact hfound
          · rw [if_neg hs]
            dsimp only
            rw [dictLookup_dictSet]
            by_cases hr : rid = rid2
            · subst hr
              rw [hfound] at hl
              injection hl with hl
              subst hl
              exact absurd hnp hs
            · rw [if_neg hr]
              exact hfound
  | error rid2 reason now =>
      simp only [ContextOp.apply, ClientContext.error_request]
      cases hl : dictLookup ctx.contexts rid2 with
      | none => exact hfound
      | some item2 =>
          dsimp only
          by_cases hs : item2.status ≠ ContextStatus.pending
          · rw [if_pos hs]
            exact hfound
          · rw [if_neg hs]
            dsimp only
            rw [dictLookup_dictSet]
            by_cases hr : rid = rid2
            · subst hr
              rw [hfound] at hl
              injection hl with hl
              subst hl
              exact absurd hnp hs
            · rw [if_neg hr]
              exact hfound
  | timeoutMark rid2 now =>
      simp only [ContextOp.apply, ClientContext.mark_timeout]
      cases hl : dictLookup ctx.contexts rid2 with
      | none => exact hfound
      | some item2 =>
          dsimp only
          rw [dictLookup_dictSet]
          by_cases hr : rid = rid2
          · subst hr
            rw [hfound] at hl
            injection hl with hl
            subst hl
            rw [ContextItem.timeout_expired_nonpending item now hnp, if_pos rfl]
          · rw [if_neg hr]
            exact hfound

/-- C7: a non-pending context status is terminal. An entry that has left
`pending` is preserved verbatim (status, result future, completed_at) by
every further sequence of complete_request / error_request / timeout
transitions, and a `complete_request` on it is a no-op returning False that
leaves the whole context state unchanged. -/
theorem C7_terminal_status (ctx : ClientContext) (rid : String) (item : ContextItem)
    (hfound : dictLookup ctx.contexts rid = some item)
    (hnp : item.status ≠ ContextStatus.pending) :
    (∀ ops : List ContextOp,
      dictLookup (ops.foldl ContextOp.apply ctx).contexts rid = some item) ∧
    (∀ result now, ctx.complete_request rid result now = (false, ctx)) := by
  constructor
  · intro ops
    induction ops generalizing ctx with
    | nil => exact hfound
    | cons op rest ih =>
        exact ih _ (contextOp_preserves_nonpending ctx rid item hfound hnp op)
  · intro result now
    simp [ClientContext.complete_request, hfound, hnp]

/-- Concrete completed context entry for the C7 witness. -/
def C7item : ContextItem :=
  { request_id := "r1", request_type := "action", request_data := .objNil,
    status := .completed, created_at := 0, completed_at := some 1,
    timeout := 30, future := .result (Message.outcome "r1" "success" .objNil),
    callback := false, metadata := .objNil }

/-- Concrete context state for the C7 witness. -/
def C7ctx : ClientContext :=
  { client_id := "c", contexts := [("r1", C7item)] }

/-- C7 witness: a completed entry survives a further complete, an error and
a timeout mark untouched, and a second complete on it returns False. -/
theorem C7_terminal_status_witness :
    (dictLookup
        ([ContextOp.complete "r1" (Message.outcome "r1" "success" .objNil) 9,
          ContextOp.error "r1" "boom" 10,
          ContextOp.timeoutMark "r1" 11].foldl ContextOp.apply C7ctx).contexts "r1" =
      some C7item) ∧
    (C7ctx.complete_request "r1" (Message.outcome "r1" "failure" .objNil) 12 =
      (false, C7ctx)) :=
  ⟨(C7_terminal_status C7ctx "r1" C7item (by decide) (by decide)).1 _,
   (C7_terminal_status C7ctx "r1" C7item (by decide) (by decide)).2 _ 12⟩

/-! ## C8: context sweeper cleanup -/

/-- A context entry completed one second after creation (C8 failing input). -/
def C8item : ContextItem :=
  { request_id := "r1", request_type := "action", request_data := .objNil,
    status := .completed, created_at := 0, completed_at := some 1,
    timeout := 30, future := .result (Message.outcome "r1" "success" .objNil) }

/-- A context state holding only that entry. -/
def C8ctx : ClientContext := { client_id := "c", contexts := [("r1", C8item)] }

/-- C8 (code bug): the cleanup pass keys removal of a non-pending entry on
`elapsed_time`, which for a completed entry is frozen at
`completed_at - created_at`, not on its age. This entry was completed 1 s
after creation, the pass runs 1000 s later (far beyond 300 s since
creation, the "clean up after 5 minutes" of the source comment and the
spec), yet the entry survives the pass unchanged — it is never removed, no
matter how old it gets. -/
theorem C8_cleanup_keeps_stale_completed :
    (1000 : Int) - C8item.created_at > 300 ∧
    C8item.status = ContextStatus.completed ∧
    C8item.elapsed_time 1000 = 1 ∧
    dictLookup ((C8ctx.cleanup_expired 1000)).contexts "r1" = some C8item := by
  decide

/-! ## C4: action/outcome correlation through the context -/

lemma generate_request_id_ne_empty (c r : String) (ts : Int) (uid : String) :
    generate_request_id c r ts uid ≠ "" := by
  intro h
  have hlen := congrArg String.length h
  simp only [generate_request_id, String.length_append] at hlen
  have h1 : ("_" : String).length = 1 := rfl
  have h0 : ("" : String).length = 0 := rfl
  omega

lemma complete_request_pending (ctx : ClientContext) (rid : String) (item : ContextItem)
    (hfound : dictLookup ctx.contexts rid = some item)
    (hp : item.status = ContextStatus.pending) (res : Message) (now : Int) :
    (ctx.complete_request rid res now).1 = true ∧
    dictLookup (ctx.complete_request rid res now).2.contexts rid =
      some (item.complete res now) := by
  simp only [ClientContext.complete_request, hfound]
  rw [if_neg (by simp [hp])]
  refine ⟨rfl, ?_⟩
  dsimp only
  rw [dictLookup_dictSet, if_pos rfl]

lemma complete_pending_unset (item : ContextItem) (res : Message) (now : Int)
    (hp : item.status = ContextStatus.pending) (hf : item.future = FutureState.unset) :
    item.complete res now =
      { item with
        status := .completed
        completed_at := some now
        future := .result res } := by
  simp [ContextItem.complete, hp, hf]

/-- C4: sending an action through `send_action_with_context` threads
`action_id = request_id` into the envelope; when the matching outcome (an
outcome message whose action_id equals that request id) arrives while the
entry is still pending — before any timeout transition — the dispatcher's
completion succeeds, the context entry ends completed with
`completed_at` equal to the arrival time and at least `created_at`, and the
awaiting call is handed exactly that outcome message. -/
theorem C4_action_outcome_correlation (ctx0 : ClientContext) (action : String)
    (params : Json) (recipient : String) (tmo : Option Int) (t0 ts : Int)
    (uid envFresh : String) (envNow t1 : Int) (ostatus : String) (odata : Json)
    (hord : t0 ≤ t1) :
    let rid := generate_request_id ctx0.client_id "action" ts uid
    let st1 := BaseClient.send_action_with_context ctx0 action params recipient tmo
      t0 ts uid envFresh envNow
    let st2 := BaseClient.handle_outcome_response st1.1
      (Message.outcome rid ostatus odata) t1
    st1.2.1 = rid ∧
    st1.2.2.message = Message.action action rid params ∧
    st2.1 = true ∧
    ∃ item, dictLookup st2.2.contexts rid = some item ∧
      item.status = ContextStatus.completed ∧
      item.created_at = t0 ∧
      item.completed_at = some t1 ∧
      item.created_at ≤ t1 ∧
      st2.2.await_value rid = some (Message.outcome rid ostatus odata) := by
  intro rid st1 st2
  have hne : rid ≠ "" := generate_request_id_ne_empty ctx0.client_id "action" ts uid
  have hitem0 : dictLookup st1.1.contexts rid =
      some
        { request_id := rid, request_type := "action",
          request_data := Json.mkObj [("action", .str action), ("params", params),
            ("recipient", .str recipient)],
          status := .pending, created_at := t0, completed_at := none,
          timeout := tmo.getD ctx0.default_timeout, future := .unset,
          callback := false, metadata := Json.objNil } := by
    show dictLookup (BaseClient.send_action_with_context ctx0 action params recipient
        tmo t0 ts uid envFresh envNow).1.contexts rid = _
    simp only [BaseClient.send_action_with_context,
      ClientContext.create_request_context, Option.getD_none]
    rw [dictLookup_dictSet,
      if_pos (show rid = generate_request_id ctx0.client_id "action" ts uid from rfl)]
  have hstep : st2 =
      st1.1.complete_request rid (Message.outcome rid ostatus odata) t1 := by
    show BaseClient.handle_outcome_response st1.1
        (Message.outcome rid ostatus odata) t1 = _
    simp [BaseClient.handle_outcome_response, hne]
  have hcr := complete_request_pending st1.1 rid _ hitem0 rfl
    (Message.outcome rid ostatus odata) t1
  rw [complete_pending_unset _ _ _ rfl rfl] at hcr
  refine ⟨rfl, rfl, ?_, ?_⟩
  · rw [hstep]
    exact hcr.1
  · refine
      ⟨{ request_id := rid, request_type := "action",
         request_data := Json.mkObj [("action", .str action), ("params", params),
           ("recipient", .str recipient)],
         status := .completed, created_at := t0, completed_at := some t1,
         timeout := tmo.getD ctx0.default_timeout,
         future := .result (Message.outcome rid ostatus odata),
         callback := false, metadata := Json.objNil }, ?_, rfl, rfl, rfl, hord, ?_⟩
    · rw [hstep]
      exact hcr.2
    · show ClientContext.await_value st2.2 rid = _
      unfold ClientContext.await_value
      rw [hstep, hcr.2]

/-- C4 witness: a concrete send/complete run (client a1, action move,
request created at t=0, outcome arriving at t=1). -/
theorem C4_action_outcome_correlation_witness :
    (let rid := generate_request_id
      (ClientContext.mk "a1" 30 [] [] 0 0 0 0).client_id "action" 0 "u"
     let st1 := BaseClient.send_action_with_context
      (ClientContext.mk "a1" 30 [] [] 0 0 0 0) "move" .objNil "env1" (some 5)
      0 0 "u" "e" 0
     let st2 := BaseClient.handle_outcome_response st1.1
      (Message.outcome rid "success" .objNil) 1
     st1.2.1 = rid ∧
     st1.2.2.message = Message.action "move" rid .objNil ∧
     st2.1 = true ∧
     ∃ item, dictLookup st2.2.contexts rid = some item ∧
       item.status = ContextStatus.completed ∧
       item.created_at = 0 ∧
       item.completed_at = some 1 ∧
       item.created_at ≤ 1 ∧
       st2.2.await_value rid = some (Message.outcome rid "success" .objNil)) :=
  C4_action_outcome_correlation (ClientContext.mk "a1" 30 [] [] 0 0 0 0) "move"
    .objNil "env1" (some 5) 0 0 "u" "e" 0 1 "success" .objNil (by decide)

/-! ## star_protocol/hub/server.py: `_create_client_info_from_connect`

The v3 server builds the registered `ClientInfo` from the handshake's
connect-event data. (Its imports resolve to the v4-shaped protocol classes
modelled above.) `_infer_env_id_for_agent` reads the live registry and is
irrelevant to the claims below, so its result is passed in as the
`inferred_env` oracle. -/

/-- Python `str.lower()` (ASCII case folding; the discriminator values are
ASCII). -/
def pyLower (s : String) : String :=
  ⟨s.data.map Char.toLower⟩

/-- Python `data.get(key, "")` for a string-valued key. -/
def Json.getStrD (j : Json) (key dflt : String) : String :=
  match j.getKey key with
  | some (.str s) => s
  | _ => dflt

/-- Python `a or b` where `a` is an optional string: the left value unless
it is falsy (absent or empty). -/
def pyOrStr (a : Option String) (b : String) : String :=
  match a with
  | some s => if s = "" then b else s
  | none => b

/-- Python `client_id.replace("env_", "")`: remove every (non-overlapping,
left-to-right) occurrence of the substring. -/
def dropEnvSub : List Char → List Char
  | 'e' :: 'n' :: 'v' :: '_' :: rest => dropEnvSub rest
  | c :: rest => c :: dropEnvSub rest
  | [] => []

def pyReplaceEnv (s : String) : String :=
  ⟨dropEnvSub s.data⟩

/-- `HubServer._create_client_info_from_connect`: dispatch on the lowered
client_type string — "environment" (env_id defaulted from the client id),
"human", and everything else an agent (env_id possibly inferred). The
function is total: no client_type value ever rejects the connection. -/
def HubServer.create_client_info_from_connect (client_id : String)
    (connect_data : Json) (inferred_env : Option String) : ClientInfo :=
  let client_type_str := pyLower (connect_data.getStrD "client_type" "")
  if client_type_str = "environment" then
    { client_id := client_id, client_type := .environment,
      env_id := some (pyOrStr (connect_data.getStr "env_id") (pyReplaceEnv client_id)),
      metadata := some ((connect_data.getKey "metadata").getD Json.objNil) }
  else if client_type_str = "human" then
    { client_id := client_id, client_type := .human,
      env_id := connect_data.getStr "env_id",
      metadata := some ((connect_data.getKey "metadata").getD Json.objNil) }
  else
    { client_id := client_id, client_type := .agent,
      env_id :=
        (match connect_data.getStr "env_id" with
         | some s => if s = "" then inferred_env else some s
         | none => inferred_env),
      metadata := some ((connect_data.getKey "metadata").getD Json.objNil) }

/-! ## C9: handshake never rejects a client_type -/

/-- C9 (counterexample): the claim "any client_type string other than
\"environment\" or \"human\" registers as agent" fails for the string
"ENVIRONMENT": the code lowercases before comparing, so this client is
registered as an environment, not an agent. -/
theorem C9_counterexample :
    ("ENVIRONMENT" : String) ≠ "environment" ∧ ("ENVIRONMENT" : String) ≠ "human" ∧
    (HubServer.create_client_info_from_connect "c1"
        (Json.mkObj [("client_type", .str "ENVIRONMENT")]) none).client_type =
      ClientType.environment := by
  decide

/-- C9 (amended): the handshake never rejects a connection over the
client_type value — `_create_client_info_from_connect` is total — and every
connect whose client_type string does not lowercase to "environment" or
"human" (including a missing or empty client_type, which defaults to "") is
registered with client_type agent. -/
theorem C9_default_client_type_amended (client_id : String) (connect_data : Json)
    (inferred_env : Option String)
    (h1 : pyLower (connect_data.getStrD "client_type" "") ≠ "environment")
    (h2 : pyLower (connect_data.getStrD "client_type" "") ≠ "human") :
    (HubServer.create_client_info_from_connect client_id connect_data
        inferred_env).client_type = ClientType.agent := by
  simp [HubServer.create_client_info_from_connect, h1, h2]

/-- C9 witness: a connect event with client_type "robot" registers as an
agent. -/
theorem C9_default_client_type_amended_witness :
    (HubServer.create_client_info_from_connect "c1"
        (Json.mkObj [("client_type", .str "robot")]) none).client_type =
      ClientType.agent :=
  C9_default_client_type_amended "c1" (Json.mkObj [("client_type", .str "robot")])
    none (by decide) (by decide)

/-! ## C10: environments always get an env_id -/

/-- C10: an environment client whose connect data lacks an env_id or has a
falsy one is still assigned one: the registered env_id is the client id
with every occurrence of "env_" removed — in particular it is never None. -/
theorem C10_environment_env_id (client_id : String) (connect_data : Json)
    (inferred_env : Option String)
    (henv : pyLower (connect_data.getStrD "client_type" "") = "environment")
    (hfalsy : connect_data.getStr "env_id" = none ∨
      connect_data.getStr "env_id" = some "") :
    (HubServer.create_client_info_from_connect client_id connect_data
        inferred_env).env_id = some (pyReplaceEnv client_id) ∧
    (HubServer.create_client_info_from_connect client_id connect_data
        inferred_env).env_id ≠ none := by
  have : (HubServer.create_client_info_from_connect client_id connect_data
      inferred_env).env_id = some (pyReplaceEnv client_id) := by
    rcases hfalsy with hf | hf <;>
      simp [HubServer.create_client_info_from_connect, henv, pyOrStr, hf]
  exact ⟨this, by rw [this]; exact Option.some_ne_none _⟩

/-- C10 witness: an env_id-less environment "env_world" is registered with
env_id "world". -/
theorem C10_environment_env_id_witness :
    (HubServer.create_client_info_from_connect "env_world"
        (Json.mkObj [("client_type", .str "environment")]) none).env_id =
      some (pyReplaceEnv "env_world") ∧
    (HubServer.create_client_info_from_connect "env_world"
        (Json.mkObj [("client_type", .str "environment")]) none).env_id ≠ none :=
  C10_environment_env_id "env_world"
    (Json.mkObj [("client_type", .str "environment")]) none (by decide)
    (Or.inl (by decide))
